import Mathlib

/-!
Verification of the operational scripts of the mirai repository:
benchmark comparison (`scripts/compare_benchmarks.py`), chart generation
(`scripts/generate_benchmark_charts.py`), nightly report aggregation
(`scripts/generate_nightly_report.py`) and the load-test harness
(`scripts/load_test.py`).  Python numbers are modelled as rationals,
Python's `float('inf')` by an explicit `PyVal.inf` constructor, and
fallible operations by `Except`.
-/

namespace Mirai

/-! ## compare_benchmarks.py : data model -/

/-- One named measurement (`BenchmarkResult` dataclass). -/
structure BenchmarkResult where
  name : String
  value : ℚ
  unit : String
  lower_is_better : Bool
deriving DecidableEq, Repr

/-- A Python float that may be `float('inf')`; finite values are rationals. -/
inductive PyVal where
  | inf : PyVal
  | fin : ℚ → PyVal
deriving DecidableEq, Repr

/-- Python `v > t` for a possibly-infinite left operand and finite right operand. -/
def PyVal.gtQ : PyVal → ℚ → Bool
  | .inf, _ => true
  | .fin q, t => decide (t < q)

/-- Python `v < t` for a possibly-infinite left operand and finite right operand. -/
def PyVal.ltQ : PyVal → ℚ → Bool
  | .inf, _ => false
  | .fin q, t => decide (q < t)

/-- Multiplication of a possibly-infinite value by a positive finite constant
(the scripts only ever scale by 100). -/
def PyVal.scale : PyVal → ℚ → PyVal
  | .inf, _ => .inf
  | .fin q, c => .fin (q * c)

/-- One comparison row (`ComparisonResult` dataclass). -/
structure ComparisonResult where
  name : String
  current : ℚ
  baseline : ℚ
  change_percent : PyVal
  regression : Bool
  improvement : Bool
deriving DecidableEq, Repr

/-- The body of the `for` loop of `BenchmarkComparator.compare_benchmarks`
(lines 84-107): percentage change, then the directionality-dependent
regression/improvement classification against the 0.05 thresholds. -/
def compareOne (cur base : BenchmarkResult) : ComparisonResult :=
  let change : PyVal :=
    if base.value = 0 then (if 0 < cur.value then .inf else .fin 0)
    else .fin ((cur.value - base.value) / base.value)
  let regression :=
    if cur.lower_is_better then change.gtQ (5 / 100) else change.ltQ (-(5 / 100))
  let improvement :=
    if cur.lower_is_better then change.ltQ (-(5 / 100)) else change.gtQ (5 / 100)
  { name := cur.name
    current := cur.value
    baseline := base.value
    change_percent := change.scale 100
    regression := regression
    improvement := improvement }

/-- Python dict assignment `d[b.name] = b` on a name-keyed dict of
benchmark results, with the dict modelled as an association list in key
insertion order: a later entry with the same name overwrites in place. -/
def dictInsert (d : List BenchmarkResult) (b : BenchmarkResult) : List BenchmarkResult :=
  if d.any (fun x => x.name == b.name) then
    d.map (fun x => if x.name == b.name then b else x)
  else d ++ [b]

/-- Building the name-keyed dict of `load_current` / `load_baseline`:
entries are inserted one by one, duplicates overwrite. -/
def loadDict (l : List BenchmarkResult) : List BenchmarkResult :=
  l.foldl dictInsert []

/-- `BenchmarkComparator.compare_benchmarks`: every current measurement with
a baseline entry of the same name yields a comparison; current-only
measurements are skipped. -/
def compare_benchmarks (current baseline : List BenchmarkResult) : List ComparisonResult :=
  current.filterMap (fun c =>
    match baseline.find? (fun b => b.name == c.name) with
    | none => none
    | some b => some (compareOne c b))

/-- Outcome of one run of `compare_benchmarks.py`'s `main`:
either bootstrap mode (the current results file is copied verbatim to the
baseline path, no comparison happens) or a comparison run with its report
rows, optional baseline promotion and exit code. -/
inductive CompareMainOutcome where
  | bootstrap (newBaselineContent : String)
  | compared (comparisons : List ComparisonResult) (newBaselineContent : Option String)
      (exitCode : Nat)
deriving DecidableEq, Repr

/-- `main` of `compare_benchmarks.py` (lines 156-198).  `parse` stands for
JSON decoding of a results file into its benchmark list; the baseline file
is `none` when absent (in which case `load_baseline` returns the empty
dict).  An empty baseline dict triggers bootstrap via
`save_current_as_baseline`, which copies the current file's raw content. -/
def compare_main (parse : String → List BenchmarkResult) (currentContent : String)
    (baselineFile : Option String) (updateBaseline : Bool) : CompareMainOutcome :=
  let current := loadDict (parse currentContent)
  let baseline :=
    match baselineFile with
    | none => []
    | some c => loadDict (parse c)
  if baseline.isEmpty then .bootstrap currentContent
  else
    let comparisons := compare_benchmarks current baseline
    let regressions := comparisons.filter (fun c => c.regression)
    let exitCode := if !regressions.isEmpty && !updateBaseline then 1 else 0
    .compared comparisons (if updateBaseline then some currentContent else none) exitCode

/-! ## generate_benchmark_charts.py -/

/-- Percentage change of `create_performance_comparison_chart`
(lines 44-47 of `generate_benchmark_charts.py`). -/
def chart_change_percent (currentValue baselineValue : ℚ) : PyVal :=
  if baselineValue ≠ 0 then .fin ((currentValue - baselineValue) / baselineValue * 100)
  else if currentValue = 0 then .fin 0
  else .inf

/-- Boolean test that `needle` occurs as a contiguous sublist of the haystack. -/
def containsSub (needle : List Char) : List Char → Bool
  | [] => needle.isEmpty
  | c :: t => needle.isPrefixOf (c :: t) || containsSub needle t

/-- Python's substring test `needle in s`. -/
def pyIn (needle s : String) : Bool :=
  containsSub needle.toList s.toList

/-- Python `str.lower()` (ASCII-adequate for the benchmark names involved),
written over the character list so that it evaluates by unfolding. -/
def pyLower (s : String) : String :=
  String.mk (s.data.map Char.toLower)

/-- `categorize_benchmark` (lines 260-277 of `generate_benchmark_charts.py`):
an if/elif chain of substring checks on the lowercased name. -/
def categorize_benchmark (name : String) : String :=
  let nl := pyLower name
  if pyIn "memory" nl || pyIn "pool" nl || pyIn "allocation" nl then "memory"
  else if pyIn "packet" nl || pyIn "network" nl then "network"
  else if pyIn "ecs" nl || pyIn "entity" nl || pyIn "component" nl then "ecs"
  else if pyIn "plugin" nl then "plugin"
  else if pyIn "tick" nl then "tick_rate"
  else if pyIn "server" nl || pyIn "startup" nl then "server"
  else "general"

/-- The six category keyword groups of `categorize_benchmark`, in source
order: a category name together with the substrings that select it. -/
def categoryGroups : List (String × List String) :=
  [("memory", ["memory", "pool", "allocation"]),
   ("network", ["packet", "network"]),
   ("ecs", ["ecs", "entity", "component"]),
   ("plugin", ["plugin"]),
   ("tick_rate", ["tick"]),
   ("server", ["server", "startup"])]

/-- The twelve keywords appearing across the six category groups. -/
def allCategoryKeywords : List String :=
  ["memory", "pool", "allocation", "packet", "network", "ecs", "entity", "component",
   "plugin", "tick", "server", "startup"]

/-- First-match semantics over an ordered list of keyword groups: the first
group one of whose keywords occurs in the lowercased name wins, else
`general`.  Spec-side formulation of the fixed priority order. -/
def firstMatchCategory (nl : String) : List (String × List String) → String
  | [] => "general"
  | g :: rest => if g.2.any (fun k => pyIn k nl) then g.1 else firstMatchCategory nl rest

/-- Categorization as first match in the fixed priority order. -/
def categorizeFirstMatch (name : String) : String :=
  firstMatchCategory (pyLower name) categoryGroups

/-! ## generate_nightly_report.py -/

/-- `all_tests_pass` of `generate_html_report` (lines 392-393): the overall
verdict consults only the unit, integration and doc failure counts
together with the security-audit and backward-compatibility flags. -/
def all_tests_pass (unit_failed integration_failed doc_failed : Nat)
    (audit_passed backward_compat : Bool) : Bool :=
  (unit_failed == 0) && (integration_failed == 0) && (doc_failed == 0) &&
    audit_passed && backward_compat

/-- `overall_result` of `generate_html_report` (line 394).  The migration
failure count is in scope at that point in the source but is not consulted
by `all_tests_pass`; it is kept as an argument to record that independence. -/
def overall_result (unit_failed integration_failed doc_failed migration_failed : Nat)
    (audit_passed backward_compat : Bool) : String :=
  if all_tests_pass unit_failed integration_failed doc_failed audit_passed backward_compat
  then "PASS" else "FAIL"

/-- Modelled from the spec: overall build status is PASS only if every test
category - including the compatibility/migration test counts - has zero
failures AND the security audit passed AND backward compatibility holds. -/
def specOverallPass (unit_failed integration_failed doc_failed migration_failed : Nat)
    (audit_passed backward_compat : Bool) : Bool :=
  (unit_failed == 0) && (integration_failed == 0) && (doc_failed == 0) &&
    (migration_failed == 0) && audit_passed && backward_compat

/-- The data `generate_html_report` reads out of `self.report_data`
(lines 345-395), after the `.get(...)` defaulting. -/
structure NightlyData where
  timestamp : String
  unit_passed : Nat
  unit_failed : Nat
  integration_passed : Nat
  integration_failed : Nat
  doc_passed : Nat
  doc_failed : Nat
  line_coverage : ℚ
  benchmark_count : Nat
  vulnerability_count : Nat
  audit_passed : Bool
  migration_passed : Nat
  migration_failed : Nat
  backward_compatibility : Bool
deriving DecidableEq, Repr

/-- The replacement-field names of the HTML template string of
`generate_html_report`, in the order `str.format` resolves them
(a `:.1f` format spec is not part of the field name).  Two of the template's
fields are Python conditional expressions, which `str.format` treats as
ordinary keyword names. -/
def templateFields : List String :=
  ["timestamp",
   "unit_status", "unit_passed", "unit_total",
   "integration_status", "integration_passed", "integration_total",
   "doc_status", "doc_passed", "doc_total",
   "coverage_status", "coverage",
   "benchmark_count", "performance_status",
   "security_status", "vulnerability_count",
   "audit_status", "\"PASS\" if audit_passed else \"FAIL\"",
   "migration_status", "migration_passed", "migration_total",
   "compat_status", "\"PASS\" if backward_compat else \"FAIL\"",
   "unit_passed", "unit_failed", "unit_total", "unit_success_rate",
   "integration_passed", "integration_failed", "integration_total",
   "integration_success_rate",
   "doc_passed", "doc_failed", "doc_total", "doc_success_rate",
   "overall_status", "overall_result"]

/-- Python `str.format` over keyword arguments, restricted to the parts the
template exercises: each replacement field is resolved against the keyword
map left to right; an unknown field name raises `KeyError`.  The literal
text between fields does not affect resolution and is elided from the
rendered value. -/
def pyFormat : List String → List (String × String) → Except String String
  | [], _ => .ok ""
  | f :: rest, kw =>
    match kw.find? (fun p => p.1 == f) with
    | none => .error ("KeyError: " ++ f)
    | some p =>
      match pyFormat rest kw with
      | .error e => .error e
      | .ok s => .ok (p.2 ++ " " ++ s)

/-- Status CSS class chosen from a failure count (e.g. line 356). -/
def failStatus (failed : Nat) : String :=
  if failed == 0 then "status-pass" else "status-fail"

/-- Coverage status (line 374): pass at 80, warn at 60, else fail. -/
def coverageStatus (coverage : ℚ) : String :=
  if 80 ≤ coverage then "status-pass"
  else if 60 ≤ coverage then "status-warn" else "status-fail"

/-- Success rate in percent with zero-total guard (e.g. line 355). -/
def successRate (passed failed : Nat) : ℚ :=
  if 0 < passed + failed then (passed : ℚ) / ((passed + failed : Nat) : ℚ) * 100 else 0

/-- The keyword arguments of the `html_template.format(...)` call
(lines 397-429), paired with (string renderings of) their values. -/
def formatKwargs (d : NightlyData) : List (String × String) :=
  [("timestamp", d.timestamp),
   ("unit_passed", toString d.unit_passed),
   ("unit_failed", toString d.unit_failed),
   ("unit_total", toString (d.unit_passed + d.unit_failed)),
   ("unit_success_rate", toString (successRate d.unit_passed d.unit_failed)),
   ("unit_status", failStatus d.unit_failed),
   ("integration_passed", toString d.integration_passed),
   ("integration_failed", toString d.integration_failed),
   ("integration_total", toString (d.integration_passed + d.integration_failed)),
   ("integration_success_rate", toString (successRate d.integration_passed d.integration_failed)),
   ("integration_status", failStatus d.integration_failed),
   ("doc_passed", toString d.doc_passed),
   ("doc_failed", toString d.doc_failed),
   ("doc_total", toString (d.doc_passed + d.doc_failed)),
   ("doc_success_rate", toString (successRate d.doc_passed d.doc_failed)),
   ("doc_status", failStatus d.doc_failed),
   ("coverage", toString d.line_coverage),
   ("coverage_status", coverageStatus d.line_coverage),
   ("benchmark_count", toString d.benchmark_count),
   ("performance_status", "status-pass"),
   ("vulnerability_count", toString d.vulnerability_count),
   ("security_status", failStatus d.vulnerability_count),
   ("audit_passed", toString d.audit_passed),
   ("audit_status", if d.audit_passed then "status-pass" else "status-fail"),
   ("migration_passed", toString d.migration_passed),
   ("migration_total", toString (d.migration_passed + d.migration_failed)),
   ("migration_status", failStatus d.migration_failed),
   ("backward_compat", toString d.backward_compatibility),
   ("compat_status", if d.backward_compatibility then "status-pass" else "status-fail"),
   ("overall_result",
     overall_result d.unit_failed d.integration_failed d.doc_failed d.migration_failed
       d.audit_passed d.backward_compatibility),
   ("overall_status",
     if all_tests_pass d.unit_failed d.integration_failed d.doc_failed d.audit_passed
       d.backward_compatibility then "status-pass" else "status-fail")]

/-- `generate_html_report` (lines 202-429): derive the metrics and render
the template via `str.format`; a `KeyError` propagates as an error. -/
def generate_html_report (d : NightlyData) : Except String String :=
  pyFormat templateFields (formatKwargs d)

/-- `generate_report` (lines 431-460): after collection, render the HTML
report and write `nightly_report.html` followed by `nightly_report.json`.
An exception from `generate_html_report` propagates before either file is
written; on success the outcome lists the files written, in order. -/
def generate_report (d : NightlyData) : Except String (List String) :=
  match generate_html_report d with
  | .error e => .error e
  | .ok _ => .ok ["nightly_report.html", "nightly_report.json"]

/-! ## load_test.py -/

/-- `ConnectionResult` dataclass of `load_test.py`. -/
structure ConnectionResult where
  connection_id : Nat
  connect_time : ℚ
  total_time : ℚ
  packets_sent : Nat
  packets_received : Nat
  errors : Nat
  success : Bool
deriving DecidableEq, Repr

/-- `LoadTestResults` dataclass of `load_test.py`. -/
structure LoadTestResults where
  total_connections : Nat
  successful_connections : Nat
  failed_connections : Nat
  total_duration : ℚ
  avg_connect_time : ℚ
  avg_response_time : ℚ
  packets_per_second : ℚ
  errors_per_second : ℚ
  memory_usage_mb : ℚ
deriving DecidableEq, Repr

/-- Outcome of the initial connect attempt of
`simulate_bedrock_connection`: HTTP 200, a non-200 status, or an exception
while connecting (which increments the error counter). -/
inductive ConnectOutcome where
  | ok
  | badStatus
  | exc
deriving DecidableEq, Repr

/-- Outcome of one iteration of the keep-alive loop: a 200 response, a
non-200 response, or an exception during the request. -/
inductive KeepAliveEvent where
  | ok
  | badStatus
  | exc
deriving DecidableEq, Repr

/-- The per-session counters mutated by `simulate_bedrock_connection`,
plus the number of keep-alive request attempts actually issued. -/
structure LoopState where
  packets_sent : Nat
  packets_received : Nat
  errors : Nat
  requests_issued : Nat
deriving DecidableEq, Repr

/-- The keep-alive `while` loop of `simulate_bedrock_connection`
(lines 74-100).  The event list holds the outcome of each iteration that
would run before the requested duration elapses, so the loop condition
`time.time() < end_time and errors < 10` becomes: stop when the list is
exhausted or the error count has reached 10.  An exception increments the
error count and breaks out immediately once it reaches 10. -/
def keepAliveLoop (st : LoopState) : List KeepAliveEvent → LoopState
  | [] => st
  | e :: rest =>
    if st.errors < 10 then
      match e with
      | .ok =>
        keepAliveLoop
          { st with
            packets_sent := st.packets_sent + 1
            packets_received := st.packets_received + 1
            requests_issued := st.requests_issued + 1 } rest
      | .badStatus =>
        keepAliveLoop
          { st with errors := st.errors + 1, requests_issued := st.requests_issued + 1 } rest
      | .exc =>
        let st' :=
          { st with errors := st.errors + 1, requests_issued := st.requests_issued + 1 }
        if 10 ≤ st'.errors then st' else keepAliveLoop st' rest
    else st

/-- The observable outcome of one simulated session. -/
structure SessionOutcome where
  packets_sent : Nat
  packets_received : Nat
  errors : Nat
  requests_issued : Nat
  success : Bool
deriving DecidableEq, Repr

/-- `simulate_bedrock_connection` (lines 46-116), abstracted over the
connect outcome and the keep-alive iteration outcomes: a failed connect
skips the loop (an exception also counts one error); the final success
flag is `success and errors < 10`. -/
def simulate_bedrock_connection (conn : ConnectOutcome) (events : List KeepAliveEvent) :
    SessionOutcome :=
  let initialErrors := match conn with | .exc => 1 | _ => 0
  let connectSuccess := match conn with | .ok => true | _ => false
  let init : LoopState :=
    { packets_sent := 0, packets_received := 0, errors := initialErrors, requests_issued := 0 }
  let final := if connectSuccess then keepAliveLoop init events else init
  { packets_sent := final.packets_sent
    packets_received := final.packets_received
    errors := final.errors
    requests_issued := final.requests_issued
    success := connectSuccess && decide (final.errors < 10) }

/-- The aggregation tail of `run_load_test` (lines 140-167), applied to
the valid per-session results, the measured wall-clock duration and the
memory gauge.  Means are over successful sessions only, with the
`if successful else 0` guard; throughput and error rate carry the
`if total_duration > 0` guard. -/
def run_load_test (valid_results : List ConnectionResult) (total_duration memory : ℚ) :
    LoadTestResults :=
  let successful := valid_results.filter (fun r => r.success)
  let failed := valid_results.filter (fun r => !r.success)
  let avg_connect_time :=
    if successful.isEmpty then 0
    else (successful.map (fun r => r.connect_time)).sum / (successful.length : ℚ)
  let avg_response_time :=
    if successful.isEmpty then 0
    else (successful.map (fun r => r.total_time)).sum / (successful.length : ℚ)
  let total_packets := ((valid_results.map (fun r => r.packets_sent)).sum : Nat)
  let packets_per_second :=
    if 0 < total_duration then (total_packets : ℚ) / total_duration else 0
  let total_errors := ((valid_results.map (fun r => r.errors)).sum : Nat)
  let errors_per_second :=
    if 0 < total_duration then (total_errors : ℚ) / total_duration else 0
  { total_connections := valid_results.length
    successful_connections := successful.length
    failed_connections := failed.length
    total_duration := total_duration
    avg_connect_time := avg_connect_time
    avg_response_time := avg_response_time
    packets_per_second := packets_per_second
    errors_per_second := errors_per_second
    memory_usage_mb := memory }

/-- Python division, which raises `ZeroDivisionError` on a zero divisor. -/
def pydiv (a b : ℚ) : Except String ℚ :=
  if b = 0 then .error "ZeroDivisionError" else .ok (a / b)

/-- Boolean success test for an `Except` computation. -/
def exceptOk {ε α : Type} : Except ε α → Bool
  | .ok _ => true
  | .error _ => false

/-- The performance-assessment tail of `generate_report` (lines 200-209):
the success rate is `successful_connections / total_connections` (an
unguarded division, line 190 computes it first for the summary), then
PASS at 0.95, WARNING at 0.80, FAIL below. -/
def generate_report_assessment (r : LoadTestResults) : Except String String :=
  match pydiv (r.successful_connections : ℚ) (r.total_connections : ℚ) with
  | .error e => .error e
  | .ok rate =>
    .ok (if 95 / 100 ≤ rate then "PASS" else if 80 / 100 ≤ rate then "WARNING" else "FAIL")

/-- The exit check of `main` (lines 244-250): exit code 1 exactly when the
success rate is below 0.80; the division is unguarded. -/
def main_exit_code (r : LoadTestResults) : Except String Nat :=
  match pydiv (r.successful_connections : ℚ) (r.total_connections : ℚ) with
  | .error e => .error e
  | .ok rate => .ok (if rate < 80 / 100 then 1 else 0)

/-! ## Helper lemmas -/

theorem filter_partition_length {α : Type} (p : α → Bool) (l : List α) :
    (l.filter p).length + (l.filter (fun a => !p a)).length = l.length := by
  induction l with
  | nil => rfl
  | cons a t ih => by_cases h : p a <;> simp [List.filter_cons, h] <;> omega

theorem keepAliveLoop_of_errors_ge (st : LoopState) (l : List KeepAliveEvent)
    (h : 10 ≤ st.errors) : keepAliveLoop st l = st := by
  cases l with
  | nil => rfl
  | cons e rest => simp [keepAliveLoop, Nat.not_lt.mpr h]

theorem keepAliveLoop_append (st : LoopState) (l1 l2 : List KeepAliveEvent) :
    keepAliveLoop st (l1 ++ l2) = keepAliveLoop (keepAliveLoop st l1) l2 := by
  induction l1 generalizing st with
  | nil => rfl
  | cons e rest ih =>
    by_cases h : st.errors < 10
    · cases e with
      | ok => simpa [keepAliveLoop, h] using ih _
      | badStatus => simpa [keepAliveLoop, h] using ih _
      | exc =>
        by_cases h2 : 10 ≤ st.errors + 1
        · simp only [List.cons_append, keepAliveLoop, if_pos h, if_pos h2]
          exact (keepAliveLoop_of_errors_ge
            { st with errors := st.errors + 1, requests_issued := st.requests_issued + 1 }
            l2 h2).symm
        · simpa [keepAliveLoop, h, h2] using ih _
    · simp [keepAliveLoop, h, keepAliveLoop_of_errors_ge st l2 (Nat.not_lt.mp h)]

/-! ## Claim theorems -/

/-- C1: for a non-zero baseline the comparator stores
`change_percent = (current - baseline) / baseline * 100`, and classifies by
directionality: with lower-is-better, regression exactly when the relative
change exceeds +5% strictly and improvement exactly when it is strictly
below -5% (reversed for higher-is-better); a relative change of exactly
±5% is neither a regression nor an improvement. -/
theorem compare_change_and_classification (cur base : BenchmarkResult)
    (hbase : base.value ≠ 0) :
    (compareOne cur base).change_percent =
        PyVal.fin ((cur.value - base.value) / base.value * 100) ∧
    (cur.lower_is_better = true →
      (((compareOne cur base).regression = true) ↔
          5 / 100 < (cur.value - base.value) / base.value) ∧
      (((compareOne cur base).improvement = true) ↔
          (cur.value - base.value) / base.value < -(5 / 100))) ∧
    (cur.lower_is_better = false →
      (((compareOne cur base).regression = true) ↔
          (cur.value - base.value) / base.value < -(5 / 100)) ∧
      (((compareOne cur base).improvement = true) ↔
          5 / 100 < (cur.value - base.value) / base.value)) ∧
    ((cur.value - base.value) / base.value = 5 / 100 ∨
          (cur.value - base.value) / base.value = -(5 / 100) →
      (compareOne cur base).regression = false ∧
      (compareOne cur base).improvement = false) := by
  refine ⟨?_, ?_, ?_, ?_⟩
  · simp [compareOne, hbase, PyVal.scale]
  · intro hl
    constructor <;> simp [compareOne, hbase, hl, PyVal.gtQ, PyVal.ltQ]
  · intro hl
    constructor <;> simp [compareOne, hbase, hl, PyVal.gtQ, PyVal.ltQ]
  · rintro (h | h) <;> cases hl : cur.lower_is_better <;>
      simp [compareOne, hbase, hl, PyVal.gtQ, PyVal.ltQ, h] <;> norm_num

/-- Witness for C1 at the spec's end-to-end scenario: current 110 vs
baseline 100, lower-is-better, is classified a regression. -/
theorem compare_change_and_classification_witness :
    (compareOne ⟨"x", 110, "ms", true⟩ ⟨"x", 100, "ms", true⟩).regression = true := by
  have h := compare_change_and_classification ⟨"x", 110, "ms", true⟩
    ⟨"x", 100, "ms", true⟩ (by norm_num)
  exact (h.2.1 rfl).1.mpr (by norm_num)

/-- C7: with a zero baseline, both the comparator and the chart generator
treat the change as infinite when the current value is positive, and as
zero when both values are zero; no division happens in either case. -/
theorem zero_baseline_policy (cur base : BenchmarkResult) (hb : base.value = 0) :
    (0 < cur.value →
      (compareOne cur base).change_percent = PyVal.inf ∧
      chart_change_percent cur.value base.value = PyVal.inf) ∧
    (cur.value = 0 →
      (compareOne cur base).change_percent = PyVal.fin 0 ∧
      chart_change_percent cur.value base.value = PyVal.fin 0) := by
  constructor
  · intro h
    constructor
    · simp [compareOne, hb, h, PyVal.scale]
    · simp [chart_change_percent, hb, h.ne']
  · intro h
    constructor
    · simp [compareOne, hb, h, PyVal.scale]
    · simp [chart_change_percent, hb, h]

/-- Witness for C7: baseline 0, current 1 gives an infinite change in both
scripts. -/
theorem zero_baseline_policy_witness :
    (compareOne ⟨"a", 1, "ms", true⟩ ⟨"a", 0, "ms", true⟩).change_percent = PyVal.inf ∧
    chart_change_percent 1 0 = PyVal.inf := by
  have h := zero_baseline_policy ⟨"a", 1, "ms", true⟩ ⟨"a", 0, "ms", true⟩ rfl
  exact h.1 (by norm_num)

/-- C8: with no baseline file, `main` of the comparator copies the current
results file verbatim to the baseline path and performs no comparison and
no regression exit. -/
theorem comparator_bootstrap (parse : String → List BenchmarkResult)
    (currentContent : String) (updateBaseline : Bool) :
    compare_main parse currentContent none updateBaseline =
      CompareMainOutcome.bootstrap currentContent := rfl

/-- C9: categorization is first-match over the fixed priority order of the
six keyword groups; a name containing both `memory` and `packet` is
categorized `memory`; a name containing none of the keywords is
categorized `general`. -/
theorem categorize_priority_order :
    (∀ name, categorize_benchmark name = categorizeFirstMatch name) ∧
    categorize_benchmark "memory_packet_roundtrip" = "memory" ∧
    (∀ name, (∀ k ∈ allCategoryKeywords, pyIn k (pyLower name) = false) →
      categorize_benchmark name = "general") := by
  refine ⟨?_, ?_, ?_⟩
  · intro name
    simp only [categorize_benchmark, categorizeFirstMatch, firstMatchCategory, categoryGroups,
      List.any_cons, List.any_nil, Bool.or_false, Bool.or_assoc]
  · decide
  · intro name h
    simp only [allCategoryKeywords, List.forall_mem_cons, List.forall_mem_singleton] at h
    obtain ⟨h1, h2, h3, h4, h5, h6, h7, h8, h9, h10, h11, h12⟩ := h
    simp [categorize_benchmark, h1, h2, h3, h4, h5, h6, h7, h8, h9, h10, h11, h12]

/-- Witness for C9: a keyword-free name lands in `general`. -/
theorem categorize_priority_order_witness :
    categorize_benchmark "frobnicate" = "general" := by
  exact categorize_priority_order.2.2 "frobnicate" (by decide)

/-- C2 counterexample: with five migration-test failures and everything
else clean, the code's overall build status is still `PASS`, while the
claim's condition (which includes the migration counts) is violated. -/
theorem nightly_overall_counterexample :
    overall_result 0 0 0 1 true true = "PASS" ∧
    specOverallPass 0 0 0 1 true true = false :=
  ⟨rfl, rfl⟩

/-- C2 amended: the overall build status is `PASS` iff the unit,
integration and doc failure counts are all zero AND the security audit
passed AND backward compatibility holds; the migration-test counts are not
consulted (the status is `FAIL` in every other case). -/
theorem nightly_overall_amended (uf itf df mf : Nat) (ap bc : Bool) :
    (overall_result uf itf df mf ap bc = "PASS" ↔
      (uf = 0 ∧ itf = 0 ∧ df = 0 ∧ ap = true ∧ bc = true)) ∧
    (overall_result uf itf df mf ap bc = "FAIL" ↔
      ¬(uf = 0 ∧ itf = 0 ∧ df = 0 ∧ ap = true ∧ bc = true)) := by
  have hcond : all_tests_pass uf itf df ap bc = true ↔
      (uf = 0 ∧ itf = 0 ∧ df = 0 ∧ ap = true ∧ bc = true) := by
    simp [all_tests_pass, and_assoc]
  unfold overall_result
  by_cases hc : all_tests_pass uf itf df ap bc = true
  · rw [if_pos hc]
    constructor
    · simp [hcond.mp hc]
    · simp [hcond.mp hc]
  · rw [if_neg hc]
    rw [hcond] at hc
    constructor
    · simp [hc]
    · simp [hc]

/-- C6: `generate_report` never reaches the point of writing its two
output files: the HTML template passed to `str.format` contains the
replacement field `"PASS" if audit_passed else "FAIL"` (a Python
conditional expression, invalid as a format field name), which raises
`KeyError` for every collected report data. -/
theorem nightly_generate_report_raises (d : NightlyData) :
    generate_report d =
      Except.error ("KeyError: \"PASS\" if audit_passed else \"FAIL\"") := rfl

/-- C3: for every run, `successful_connections + failed_connections =
total_connections`, and the connect/response averages are arithmetic means
over the successful sessions only, defaulting to zero when none
succeeded. -/
theorem load_aggregate_invariant (valid_results : List ConnectionResult)
    (total_duration memory : ℚ) :
    (run_load_test valid_results total_duration memory).successful_connections +
        (run_load_test valid_results total_duration memory).failed_connections =
      (run_load_test valid_results total_duration memory).total_connections ∧
    (valid_results.filter (fun r => r.success) ≠ [] →
      (run_load_test valid_results total_duration memory).avg_connect_time =
        ((valid_results.filter (fun r => r.success)).map (fun r => r.connect_time)).sum /
          ((valid_results.filter (fun r => r.success)).length : ℚ) ∧
      (run_load_test valid_results total_duration memory).avg_response_time =
        ((valid_results.filter (fun r => r.success)).map (fun r => r.total_time)).sum /
          ((valid_results.filter (fun r => r.success)).length : ℚ)) ∧
    (valid_results.filter (fun r => r.success) = [] →
      (run_load_test valid_results total_duration memory).avg_connect_time = 0 ∧
      (run_load_test valid_results total_duration memory).avg_response_time = 0) := by
  refine ⟨?_, ?_, ?_⟩
  · simpa [run_load_test] using filter_partition_length (fun r => r.success) valid_results
  · intro h
    constructor <;> simp [run_load_test, h]
  · intro h
    constructor <;> simp [run_load_test, h]

/-- Witness for C3: one successful session (connect 1s, total 2s) and one
failed session give averages 1 and 2, taken over the success only. -/
theorem load_aggregate_invariant_witness :
    (run_load_test [⟨0, 1, 2, 3, 3, 0, true⟩, ⟨1, 0, 0, 0, 0, 1, false⟩] 5 0).avg_connect_time
        = 1 ∧
    (run_load_test [⟨0, 1, 2, 3, 3, 0, true⟩, ⟨1, 0, 0, 0, 0, 1, false⟩] 5 0).avg_response_time
        = 2 := by
  have h := (load_aggregate_invariant
    [⟨0, 1, 2, 3, 3, 0, true⟩, ⟨1, 0, 0, 0, 0, 1, false⟩] 5 0).2.1 (by decide)
  constructor
  · rw [h.1]; norm_num
  · rw [h.2]; norm_num

/-- C4: once a session's error count reaches 10 inside the keep-alive
loop, no further iterations run (appending more planned iterations changes
nothing), and a session whose final error count reached 10 is marked
unsuccessful even though its connect succeeded. -/
theorem session_error_cutoff :
    (∀ (st : LoopState) (l1 l2 : List KeepAliveEvent),
        10 ≤ (keepAliveLoop st l1).errors →
      keepAliveLoop st (l1 ++ l2) = keepAliveLoop st l1) ∧
    (∀ events, 10 ≤ (simulate_bedrock_connection .ok events).errors →
      (simulate_bedrock_connection .ok events).success = false) := by
  constructor
  · intro st l1 l2 h
    rw [keepAliveLoop_append]
    exact keepAliveLoop_of_errors_ge _ l2 h
  · intro events h
    have h' : 10 ≤ (keepAliveLoop ⟨0, 0, 0, 0⟩ events).errors := by
      simpa [simulate_bedrock_connection] using h
    simp [simulate_bedrock_connection, Nat.not_lt.mpr h']

/-- Witness for C4: ten failed keep-alives exhaust the error budget; an
eleventh planned iteration is never issued and the session is
unsuccessful. -/
theorem session_error_cutoff_witness :
    keepAliveLoop ⟨0, 0, 0, 0⟩
        (List.replicate 10 KeepAliveEvent.badStatus ++ [KeepAliveEvent.ok]) =
      keepAliveLoop ⟨0, 0, 0, 0⟩ (List.replicate 10 KeepAliveEvent.badStatus) ∧
    (simulate_bedrock_connection .ok (List.replicate 10 KeepAliveEvent.badStatus)).success
        = false := by
  constructor
  · exact session_error_cutoff.1 _ _ _ (by decide)
  · exact session_error_cutoff.2 _ (by decide)

/-- C5: with at least one counted connection, the assessment is PASS at a
success rate of at least 95%, WARNING in [80%, 95%), FAIL below 80%; the
exit code is 1 exactly when the rate is below 80%, so the warning band
still exits successfully. -/
theorem load_verdict (r : LoadTestResults) (h : r.total_connections ≠ 0) :
    (generate_report_assessment r = Except.ok "PASS" ↔
      95 / 100 ≤ (r.successful_connections : ℚ) / (r.total_connections : ℚ)) ∧
    (generate_report_assessment r = Except.ok "WARNING" ↔
      (80 / 100 ≤ (r.successful_connections : ℚ) / (r.total_connections : ℚ) ∧
        (r.successful_connections : ℚ) / (r.total_connections : ℚ) < 95 / 100)) ∧
    (generate_report_assessment r = Except.ok "FAIL" ↔
      (r.successful_connections : ℚ) / (r.total_connections : ℚ) < 80 / 100) ∧
    (main_exit_code r = Except.ok 1 ↔
      (r.successful_connections : ℚ) / (r.total_connections : ℚ) < 80 / 100) ∧
    (80 / 100 ≤ (r.successful_connections : ℚ) / (r.total_connections : ℚ) ∧
        (r.successful_connections : ℚ) / (r.total_connections : ℚ) < 95 / 100 →
      main_exit_code r = Except.ok 0) := by
  have hc : ((r.total_connections : ℚ)) ≠ 0 := Nat.cast_ne_zero.mpr h
  simp only [generate_report_assessment, main_exit_code, pydiv, if_neg hc]
  refine ⟨?_, ?_, ?_, ?_, ?_⟩ <;>
    split_ifs with h1 h2 <;> simp_all <;> linarith

/-- Witness for C5: 9 successes out of 10 (rate 90%) is a WARNING verdict
with a successful exit. -/
theorem load_verdict_witness :
    generate_report_assessment ⟨10, 9, 1, 5, 1, 2, 0, 0, 0⟩ = Except.ok "WARNING" ∧
    main_exit_code ⟨10, 9, 1, 5, 1, 2, 0, 0, 0⟩ = Except.ok 0 := by
  have h := load_verdict ⟨10, 9, 1, 5, 1, 2, 0, 0, 0⟩ (by norm_num)
  constructor
  · exact h.2.1.mpr (by norm_num)
  · exact h.2.2.2.2 (by norm_num)

/-- C10: throughput and error rate carry a zero-duration guard (they
default to 0), but the success-rate divisions in the report and the final
exit check are unguarded: they are well-defined iff at least one valid
session result exists. -/
theorem load_division_guards (valid_results : List ConnectionResult) (dur mem : ℚ) :
    (dur ≤ 0 →
      (run_load_test valid_results dur mem).packets_per_second = 0 ∧
      (run_load_test valid_results dur mem).errors_per_second = 0) ∧
    (exceptOk (generate_report_assessment (run_load_test valid_results dur mem)) = true ↔
      valid_results ≠ []) ∧
    (exceptOk (main_exit_code (run_load_test valid_results dur mem)) = true ↔
      valid_results ≠ []) := by
  refine ⟨?_, ?_, ?_⟩
  · intro hd
    constructor <;> simp [run_load_test, not_lt.mpr hd]
  · by_cases hl : valid_results = [] <;>
      simp [generate_report_assessment, pydiv, exceptOk, run_load_test, hl,
        List.length_eq_zero]
  · by_cases hl : valid_results = [] <;>
      simp [main_exit_code, pydiv, exceptOk, run_load_test, hl, List.length_eq_zero]

/-- Witness for C10: a zero-duration run with no valid results has zero
throughput and an undefined (erroring) success rate. -/
theorem load_division_guards_witness :
    (run_load_test [] (0 : ℚ) 0).packets_per_second = 0 ∧
    exceptOk (generate_report_assessment (run_load_test [] (0 : ℚ) 0)) = false := by
  have h := load_division_guards [] 0 0
  refine ⟨(h.1 le_rfl).1, ?_⟩
  have h2 := h.2.1
  simp only [ne_eq, not_true_eq_false, iff_false] at h2
  exact Bool.not_eq_true _ |>.mp h2

end Mirai
